import Mathlib

/-!
Shallow embedding of the ledger engine of the Personal-Finance-Visualizer
repository (src/components/components-finance-tracker.tsx).

Monetary values are modelled as rationals: every amount entering the ledger
is parsed from a string matching the digit pattern of `validateNumber`
(digits with at most two decimal places), so all arithmetic performed by the
code is exact decimal arithmetic, which `Rat` represents faithfully.

React `useState` state is modelled as one explicit `State` record; each
handler becomes a function `State → ... → State × Bool`, where the `Bool`
records whether the success path ran (`saveData` called).  Dates are opaque
strings, as in the code.
-/

namespace FT

set_option maxRecDepth 8192

/-- `type` field of a transaction: `'income' | 'expense'`. -/
inductive TxType where
  | income
  | expense
deriving DecidableEq, Repr

/-- `account` field of a transaction: `'chequing' | 'savings'`. -/
inductive Account where
  | chequing
  | savings
deriving DecidableEq, Repr

/-- `interface Transaction` (line 47 of the source). -/
structure Transaction where
  id : Nat
  date : String
  description : String
  amount : Rat
  type : TxType
  category : String
  account : Account
deriving DecidableEq, Repr

/-- `interface Goal` (line 57). -/
structure Goal where
  id : Nat
  name : String
  target : Rat
  current : Rat
  deadline : String
deriving DecidableEq, Repr

/-- `interface UserData` (line 65): raw strings as typed into the forms. -/
structure UserData where
  name : String
  chequingBalance : String
  savingsBalance : String
  monthlyIncome : String
  monthlyExpenses : String
deriving DecidableEq, Repr

/-- `interface BudgetCategory` (line 73). -/
structure BudgetCategory where
  category : String
  limit : Rat
deriving DecidableEq, Repr

/-- The `type` field of `interface Investment` (line 84). -/
inductive InvKind where
  | RRSP
  | TFSA
  | GIC
  | OSAP
deriving DecidableEq, Repr

/-- `interface Investment` (line 84). -/
structure Investment where
  id : Nat
  type : InvKind
  balance : Rat
  interestRate : Option Rat
  maturityDate : Option String
deriving DecidableEq, Repr

/-- `interface Cryptocurrency` (line 92). -/
structure Cryptocurrency where
  id : Nat
  name : String
  symbol : String
  amount : Rat
  purchasePrice : Rat
  currentPrice : Rat
deriving DecidableEq, Repr

/-- The component state: one field per `useState` hook that the ledger
operations read or write (presentation-only hooks such as `activeTab` and
the transaction form echo are omitted). -/
structure State where
  chequingBalance : Rat
  savingsBalance : Rat
  income : Rat
  expenses : Rat
  transactions : List Transaction
  goals : List Goal
  budgetCategories : List BudgetCategory
  investments : List Investment
  cryptocurrencies : List Cryptocurrency
  userData : UserData
  financialHealthScore : Rat
  showQuestionnaire : Bool
deriving DecidableEq, Repr

/-- `interface FinancialData` sub-object `userData` (line 111): every key
optional, as produced by `JSON.parse` of an arbitrary blob. -/
structure UserDataBlob where
  name : Option String
  chequingBalance : Option String
  savingsBalance : Option String
  monthlyIncome : Option String
  monthlyExpenses : Option String
deriving DecidableEq, Repr

/-- `interface FinancialData` (line 101): the parsed import blob, every
top-level key optional. -/
structure FinancialData where
  chequingBalance : Option Rat
  savingsBalance : Option Rat
  income : Option Rat
  expenses : Option Rat
  transactions : Option (List Transaction)
  goals : Option (List Goal)
  budgetCategories : Option (List BudgetCategory)
  investments : Option (List Investment)
  cryptocurrencies : Option (List Cryptocurrency)
  userData : Option UserDataBlob
  financialHealthScore : Option Rat
deriving DecidableEq, Repr

/-- The `newTransaction` form contents consumed by `addTransaction`
(line 161): description, amount string, type, category, date, account. -/
structure NewTxInput where
  description : String
  amount : String
  type : TxType
  category : String
  date : String
  account : Account
deriving DecidableEq, Repr

/-- Split a character list at the first dot, as the regex
`\d+(\.\d{1,2})?` does: integer part, and the part after the dot when a
dot is present. -/
def splitDot : List Char → List Char × Option (List Char)
  | [] => ([], none)
  | c :: rest =>
    if c = '.' then ([], some rest)
    else
      let p := splitDot rest
      (c :: p.1, p.2)

/-- Digits of a character list read as a natural number (used only on
all-digit lists). -/
def natOfDigits (l : List Char) : Nat :=
  l.foldl (fun acc c => acc * 10 + (c.toNat - 48)) 0

/-- `parseFloat` restricted to strings of the shape `\d+(\.\d{1,2})?`
accepted by `validateNumber`: the exact rational value of the decimal
literal. -/
def parseNumber (s : String) : Rat :=
  match splitDot s.toList with
  | (intPart, none) => (natOfDigits intPart : Rat)
  | (intPart, some f) =>
      (natOfDigits intPart : Rat) + (natOfDigits f : Rat) / ((10 : Rat) ^ f.length)

/-- `validateNumber` (line 129): the regex `^\d+(\.\d{1,2})?$` test,
then `parseFloat(value) >= 0` (evaluated only when the regex matched,
mirroring `&&` short-circuiting). -/
def validateNumber (s : String) : Bool :=
  (match splitDot s.toList with
   | (intPart, fracPart) =>
     !intPart.isEmpty && intPart.all Char.isDigit &&
     (match fracPart with
      | none => true
      | some f => (f.length == 1 || f.length == 2) && f.all Char.isDigit))
  && decide (0 ≤ parseNumber s)

/-- Characters matched by the class `[a-zA-Z\s]` of `validateName`
(ASCII whitespace approximates the JS `\s` class; the claims use only
letters). -/
def isNameChar (c : Char) : Bool :=
  c.isAlpha || c = ' ' || c = '\t' || c = '\n' || c = '\r'

/-- `validateName` (line 133): `^[a-zA-Z\s]{2,30}$`. -/
def validateName (s : String) : Bool :=
  2 ≤ s.length && s.length ≤ 30 && s.toList.all isNameChar

/-- `calculateFinancialHealth` (line 137). -/
def calculateFinancialHealth (income expenses savings investments debt : Rat) : Rat :=
  if income = 0 then 0
  else
    let savingsRate := savings / income
    let investmentRate := investments / income
    let debtToIncome := debt / income
    let expenseShare := expenses / income
    let score := savingsRate * 30 + investmentRate * 20
      + (1 - debtToIncome) * 25 + (1 - expenseShare) * 25
    min (max (score * 100) 0) 100

/-- `updateGoalProgress` (line 325): every goal's `current` grows by the
amount when it is positive, by nothing otherwise. -/
def updateGoalProgress (goals : List Goal) (amount : Rat) : List Goal :=
  goals.map fun g => { g with current := g.current + (if amount > 0 then amount else 0) }

/-- `updateFinances` (line 311): route the signed amount to the named
account's balance, bump `income` when positive and `expenses` otherwise,
then run `updateGoalProgress`. -/
def updateFinances (s : State) (amount : Rat) (account : Account) : State :=
  let s1 :=
    match account with
    | .chequing => { s with chequingBalance := s.chequingBalance + amount }
    | .savings => { s with savingsBalance := s.savingsBalance + amount }
  let s2 :=
    if amount > 0 then { s1 with income := s1.income + amount }
    else { s1 with expenses := s1.expenses - amount }
  { s2 with goals := updateGoalProgress s2.goals amount }

/-- `addTransaction` (line 276).  The `Bool` result records whether the
success path ran (state mutated and `saveData` called); on the two
rejection paths only a toast is raised.  The truthiness guard on
`newTransaction.account` is always satisfied since `account` is an
enumeration. -/
def addTransaction (s : State) (n : NewTxInput) : State × Bool :=
  if n.description ≠ "" ∧ n.amount ≠ "" ∧ n.category ≠ "" then
    if validateNumber n.amount then
      let amount : Rat :=
        match n.type with
        | .income => parseNumber n.amount
        | .expense => -parseNumber n.amount
      let t : Transaction :=
        { id := s.transactions.length + 1
          date := n.date
          description := n.description
          amount := amount
          type := n.type
          category := n.category
          account := n.account }
      let s1 := { s with transactions := t :: s.transactions }
      (updateFinances s1 amount n.account, true)
    else (s, false)
  else (s, false)

/-- `deleteTransaction` (line 335): look up the first transaction with the
id, remove every transaction with that id, and re-run `updateFinances`
with the negated stored amount of the first match. -/
def deleteTransaction (s : State) (id : Nat) : State × Bool :=
  match s.transactions.find? (fun t => t.id == id) with
  | some t =>
      let s1 := { s with transactions := s.transactions.filter (fun u => u.id != id) }
      (updateFinances s1 (-t.amount) t.account, true)
  | none => (s, false)

/-- `validateUserData` (line 227): success iff no field-level error is
recorded, i.e. iff all five validators pass. -/
def validateUserData (u : UserData) : Bool :=
  validateName u.name && validateNumber u.chequingBalance
    && validateNumber u.savingsBalance && validateNumber u.monthlyIncome
    && validateNumber u.monthlyExpenses

/-- `handleQuestionnaireSubmit` (line 248): on valid user data, set the
four scalars from the parsed strings, replace the transaction list by the
four seed transactions dated `currentDate`, and clear the questionnaire
flag.  The `Bool` records success (`saveData` called). -/
def handleQuestionnaireSubmit (s : State) (currentDate : String) : State × Bool :=
  if validateUserData s.userData then
    let icb := parseNumber s.userData.chequingBalance
    let isb := parseNumber s.userData.savingsBalance
    let mi := parseNumber s.userData.monthlyIncome
    let me := parseNumber s.userData.monthlyExpenses
    ({ s with
        chequingBalance := icb
        savingsBalance := isb
        income := mi
        expenses := me
        transactions := [
          { id := 1, date := currentDate, description := "Initial Chequing Balance",
            amount := icb, type := .income, category := "Other", account := .chequing },
          { id := 2, date := currentDate, description := "Initial Savings Balance",
            amount := isb, type := .income, category := "Other", account := .savings },
          { id := 3, date := currentDate, description := "Monthly Income",
            amount := mi, type := .income, category := "Other", account := .chequing },
          { id := 4, date := currentDate, description := "Monthly Expenses",
            amount := -me, type := .expense, category := "Other", account := .chequing }]
        showQuestionnaire := false }, true)
  else (s, false)

/-- `exportData` (line 521): serialize the full state tuple; every key of
the blob is present. -/
def exportData (s : State) : FinancialData :=
  { chequingBalance := some s.chequingBalance
    savingsBalance := some s.savingsBalance
    income := some s.income
    expenses := some s.expenses
    transactions := some s.transactions
    goals := some s.goals
    budgetCategories := some s.budgetCategories
    investments := some s.investments
    cryptocurrencies := some s.cryptocurrencies
    userData := some
      { name := some s.userData.name
        chequingBalance := some s.userData.chequingBalance
        savingsBalance := some s.userData.savingsBalance
        monthlyIncome := some s.userData.monthlyIncome
        monthlyExpenses := some s.userData.monthlyExpenses }
    financialHealthScore := some s.financialHealthScore }

/-- `updateAllData` (line 189): replace every state field from the blob,
defaulting absent keys (numbers to 0, lists to empty, `name` to the empty
string, numeric strings to "0"), and clear the questionnaire flag. -/
def updateAllData (d : FinancialData) : State :=
  { chequingBalance := d.chequingBalance.getD 0
    savingsBalance := d.savingsBalance.getD 0
    income := d.income.getD 0
    expenses := d.expenses.getD 0
    transactions := d.transactions.getD []
    goals := d.goals.getD []
    budgetCategories := d.budgetCategories.getD []
    investments := d.investments.getD []
    cryptocurrencies := d.cryptocurrencies.getD []
    userData :=
      match d.userData with
      | none => { name := "", chequingBalance := "0", savingsBalance := "0",
                  monthlyIncome := "0", monthlyExpenses := "0" }
      | some u => { name := u.name.getD "", chequingBalance := u.chequingBalance.getD "0",
                    savingsBalance := u.savingsBalance.getD "0",
                    monthlyIncome := u.monthlyIncome.getD "0",
                    monthlyExpenses := u.monthlyExpenses.getD "0" }
    financialHealthScore := d.financialHealthScore.getD 0
    showQuestionnaire := false }

/-- `importData` (line 545).  The platform `JSON.parse` is modelled
abstractly: `none` stands for input on which it throws (not JSON), and
`some d` for any parseable input, with absent keys as `none` fields of
`d`.  On a parse exception the `catch` block raises the error toast and
the state is untouched; on parseable input `updateAllData` replaces the
state and `saveData` runs.  The `Bool` records the success path. -/
def importData (s : State) (input : Option FinancialData) : State × Bool :=
  match input with
  | some d => (updateAllData d, true)
  | none => (s, false)

/-- The state before any data is entered: all `useState` initial values
(zeros, empty lists, empty strings, questionnaire showing). -/
def initialState : State :=
  { chequingBalance := 0
    savingsBalance := 0
    income := 0
    expenses := 0
    transactions := []
    goals := []
    budgetCategories := []
    investments := []
    cryptocurrencies := []
    userData := { name := "", chequingBalance := "", savingsBalance := "",
                  monthlyIncome := "", monthlyExpenses := "" }
    financialHealthScore := 0
    showQuestionnaire := true }

/-! ### Derived notions and concrete states used by the verification -/

/-- The signed amount computed on the success path of `addTransaction`
(line 284): `+parseFloat` for income, `-parseFloat` for expense. -/
def signedAmount (n : NewTxInput) : Rat :=
  match n.type with
  | .income => parseNumber n.amount
  | .expense => -parseNumber n.amount

/-- The transaction record built on the success path of `addTransaction`
(line 285): id `count + 1`, the form fields, and the signed amount. -/
def newTxOf (s : State) (n : NewTxInput) : Transaction :=
  { id := s.transactions.length + 1, date := n.date, description := n.description,
    amount := signedAmount n, type := n.type, category := n.category,
    account := n.account }

/-- The state produced by the success path of `addTransaction`: the new
transaction prepended, then `updateFinances` with the signed amount. -/
def postAddState (s : State) (n : NewTxInput) : State :=
  updateFinances { s with transactions := newTxOf s n :: s.transactions }
    (signedAmount n) n.account

/-- Sum of `amount` over the transactions routed to one account. -/
def accountSum (acc : Account) : List Transaction → Rat
  | [] => 0
  | t :: ts => (if t.account = acc then t.amount else 0) + accountSum acc ts

/-- The balance-ledger invariant: each balance equals the sum of the
amounts of the transactions on that account. -/
def BalanceInv (s : State) : Prop :=
  s.chequingBalance = accountSum .chequing s.transactions ∧
    s.savingsBalance = accountSum .savings s.transactions

instance (s : State) : Decidable (BalanceInv s) := by
  unfold BalanceInv; infer_instance

/-- `addTransaction` immediately followed by `deleteTransaction` of the id
the new transaction received (`count + 1`). -/
def addThenDelete (s : State) (n : NewTxInput) : State :=
  (deleteTransaction (addTransaction s n).1 (s.transactions.length + 1)).1

/-- States reachable from a successful onboarding by `addTransaction` and
`deleteTransaction` calls. -/
inductive Reachable : State → Prop where
  | base (s0 : State) (d : String) (h : validateUserData s0.userData = true) :
      Reachable (handleQuestionnaireSubmit s0 d).1
  | add (s : State) (n : NewTxInput) (h : Reachable s) :
      Reachable (addTransaction s n).1
  | del (s : State) (i : Nat) (h : Reachable s) :
      Reachable (deleteTransaction s i).1

/-- States reachable from a successful onboarding by `addTransaction`
calls alone. -/
inductive ReachableByAdds : State → Prop where
  | base (s0 : State) (d : String) (h : validateUserData s0.userData = true) :
      ReachableByAdds (handleQuestionnaireSubmit s0 d).1
  | step (s : State) (n : NewTxInput) (h : ReachableByAdds s) :
      ReachableByAdds (addTransaction s n).1

/-- Auxiliary invariant for id uniqueness: every id is at most the list
length, and ids are pairwise distinct. -/
def GoodIds (s : State) : Prop :=
  (∀ t ∈ s.transactions, t.id ≤ s.transactions.length) ∧
    (s.transactions.map Transaction.id).Nodup

/-- The fresh state with the onboarding answers of the Alex scenario
typed into the questionnaire form. -/
def alexStart : State :=
  { initialState with userData :=
      { name := "Alex", chequingBalance := "1000", savingsBalance := "500",
        monthlyIncome := "3000", monthlyExpenses := "2000" } }

/-- The state after submitting the Alex questionnaire (date fixed). -/
def onboardedAlex : State := (handleQuestionnaireSubmit alexStart "2025-01-01").1

/-- The Coffee transaction form input of the C5 scenario. -/
def coffeeInput : NewTxInput :=
  { description := "Coffee", amount := "5", type := .expense, category := "Food",
    date := "2025-01-02", account := .chequing }

/-- The state after adding the Coffee expense to the onboarded state. -/
def afterCoffee : State := (addTransaction onboardedAlex coffeeInput).1

/-- A form input whose amount string "-5" fails the numeric pattern. -/
def negFiveInput : NewTxInput :=
  { description := "Coffee", amount := "-5", type := .expense, category := "Food",
    date := "2025-01-02", account := .chequing }

/-- A form input whose amount string "abc" fails the numeric pattern. -/
def abcInput : NewTxInput := { negFiveInput with amount := "abc" }

/-- A form input with an empty description. -/
def noDescInput : NewTxInput := { negFiveInput with description := "", amount := "5" }

/-- An income transaction form input used to exercise add-then-delete. -/
def giftInput : NewTxInput :=
  { description := "Gift", amount := "5", type := .income, category := "Other",
    date := "2025-01-02", account := .chequing }

/-- Inputs of the duplicate-id sequence: three chequing income deposits. -/
def depositA : NewTxInput :=
  { description := "a", amount := "1", type := .income, category := "Other",
    date := "2025-01-03", account := .chequing }

/-- Second deposit of the duplicate-id sequence. -/
def depositB : NewTxInput := { depositA with description := "b", amount := "2" }

/-- Third deposit of the duplicate-id sequence. -/
def depositC : NewTxInput := { depositA with description := "c", amount := "4" }

/-- Step 1 of the duplicate-id sequence: add deposit "1". -/
def c1s1 : State := (addTransaction initialState depositA).1

/-- Step 2: add deposit "2" (new transaction gets id 2). -/
def c1s2 : State := (addTransaction c1s1 depositB).1

/-- Step 3: delete transaction id 1. -/
def c1s3 : State := (deleteTransaction c1s2 1).1

/-- Step 4: add deposit "4"; the new id is `count + 1 = 2` again. -/
def c1s4 : State := (addTransaction c1s3 depositC).1

/-- Step 5: delete id 2, which now matches two transactions. -/
def dupSeqState : State := (deleteTransaction c1s4 2).1

/-- Onboarded state after one delete and one add: the new transaction
reuses id 4. -/
def reusedIdState : State :=
  (addTransaction (deleteTransaction onboardedAlex 1).1 depositC).1

/-- A state holding two transactions that share id 2 (with the balances
consistent with its list), as arises from the duplicate-id sequence. -/
def dupIdState : State :=
  { initialState with
      chequingBalance := 6
      income := 7
      transactions := [
        { id := 2, date := "2025-01-03", description := "c", amount := 4,
          type := .income, category := "Other", account := .chequing },
        { id := 2, date := "2025-01-03", description := "b", amount := 2,
          type := .income, category := "Other", account := .chequing }] }

/-- The parse result of the wrong-shape but well-formed JSON document
`\x7b\x7d`: every expected key absent. -/
def emptyBlob : FinancialData :=
  { chequingBalance := none, savingsBalance := none, income := none,
    expenses := none, transactions := none, goals := none,
    budgetCategories := none, investments := none, cryptocurrencies := none,
    userData := none, financialHealthScore := none }

/-! ### Helper lemmas about the operations -/

theorem updateFinances_transactions (s : State) (a : Rat) (acc : Account) :
    (updateFinances s a acc).transactions = s.transactions := by
  cases acc <;> by_cases h : a > 0 <;> simp [updateFinances, h]

theorem updateFinances_chequingBalance (s : State) (a : Rat) (acc : Account) :
    (updateFinances s a acc).chequingBalance
      = s.chequingBalance + (if acc = .chequing then a else 0) := by
  cases acc <;> by_cases h : a > 0 <;> simp [updateFinances, h]

theorem updateFinances_savingsBalance (s : State) (a : Rat) (acc : Account) :
    (updateFinances s a acc).savingsBalance
      = s.savingsBalance + (if acc = .savings then a else 0) := by
  cases acc <;> by_cases h : a > 0 <;> simp [updateFinances, h]

theorem updateFinances_income (s : State) (a : Rat) (acc : Account) :
    (updateFinances s a acc).income
      = (if 0 < a then s.income + a else s.income) := by
  cases acc <;> by_cases h : 0 < a <;> simp [updateFinances, h]

theorem updateFinances_expenses (s : State) (a : Rat) (acc : Account) :
    (updateFinances s a acc).expenses
      = (if 0 < a then s.expenses else s.expenses - a) := by
  cases acc <;> by_cases h : 0 < a <;> simp [updateFinances, h]

theorem updateFinances_goals (s : State) (a : Rat) (acc : Account) :
    (updateFinances s a acc).goals = updateGoalProgress s.goals a := by
  cases acc <;> by_cases h : 0 < a <;> simp [updateFinances, h]

theorem validateNumber_nonneg (s : String) (h : validateNumber s = true) :
    0 ≤ parseNumber s := by
  unfold validateNumber at h
  simp only [Bool.and_eq_true, decide_eq_true_eq] at h
  exact h.2

theorem updateGoalProgress_nonpos (gs : List Goal) (a : Rat) (h : ¬ a > 0) :
    updateGoalProgress gs a = gs := by
  induction gs with
  | nil => rfl
  | cons g gs ih =>
    simp only [updateGoalProgress, List.map_cons, if_neg h, add_zero] at ih ⊢
    rw [ih]

theorem updateGoalProgress_pos (gs : List Goal) (a : Rat) (h : a > 0) :
    updateGoalProgress gs a
      = gs.map fun g => { g with current := g.current + a } := by
  simp only [updateGoalProgress, if_pos h]

theorem addTransaction_success (s : State) (n : NewTxInput)
    (h1 : n.description ≠ "") (h2 : n.amount ≠ "") (h3 : n.category ≠ "")
    (hv : validateNumber n.amount = true) :
    addTransaction s n = (postAddState s n, true) := by
  simp [addTransaction, signedAmount, postAddState, newTxOf, h1, h2, h3, hv]

theorem accountSum_cons (acc : Account) (t : Transaction) (ts : List Transaction) :
    accountSum acc (t :: ts)
      = (if t.account = acc then t.amount else 0) + accountSum acc ts := rfl

theorem accountSum_filter (acc : Account) (i : Nat) (t : Transaction) :
    ∀ ts : List Transaction, (ts.map Transaction.id).Nodup →
      ts.find? (fun u => u.id == i) = some t →
      accountSum acc (ts.filter (fun u => u.id != i))
        = accountSum acc ts - (if t.account = acc then t.amount else 0) := by
  intro ts
  induction ts with
  | nil => intro _ hf; simp at hf
  | cons u ts ih =>
    intro hnd hf
    have hnd' : (u.id ∉ ts.map Transaction.id) ∧ (ts.map Transaction.id).Nodup := by
      simpa [List.nodup_cons] using hnd
    by_cases hu : u.id = i
    · rw [List.find?_cons_of_pos _ (by simp [hu])] at hf
      have ht : t = u := by injection hf with h; exact h.symm
      subst ht
      have hkeep : ts.filter (fun v => v.id != i) = ts := by
        apply List.filter_eq_self.mpr
        intro v hv
        have hvmem : v.id ∈ ts.map Transaction.id :=
          List.mem_map_of_mem Transaction.id hv
        have hvne : v.id ≠ i := fun hvi => hnd'.1 (by rw [hu, ← hvi]; exact hvmem)
        simpa using hvne
      have hdrop : (t.id != i) = false := by simp [hu]
      rw [List.filter_cons, hdrop]
      simp only [Bool.false_eq_true, if_false, hkeep, accountSum_cons]
      ring
    · rw [List.find?_cons_of_neg _ (by simp [hu])] at hf
      have hkeepu : (u.id != i) = true := by simp [hu]
      rw [List.filter_cons, hkeepu]
      simp only [if_true, accountSum_cons, ih hnd'.2 hf]
      ring

theorem add_preserves_balanceInv (s : State) (n : NewTxInput)
    (h : BalanceInv s) : BalanceInv (addTransaction s n).1 := by
  obtain ⟨hc, hs⟩ := h
  unfold addTransaction
  by_cases hall : n.description ≠ "" ∧ n.amount ≠ "" ∧ n.category ≠ ""
  · rw [if_pos hall]
    by_cases hv : validateNumber n.amount
    · simp only [hv, if_true]
      constructor
      · rw [updateFinances_chequingBalance, updateFinances_transactions]
        show _ = accountSum Account.chequing (_ :: s.transactions)
        rw [accountSum_cons, hc]
        exact add_comm _ _
      · rw [updateFinances_savingsBalance, updateFinances_transactions]
        show _ = accountSum Account.savings (_ :: s.transactions)
        rw [accountSum_cons, hs]
        exact add_comm _ _
    · simp only [hv, if_false]
      exact ⟨hc, hs⟩
  · rw [if_neg hall]
    exact ⟨hc, hs⟩

theorem delete_preserves_balanceInv (s : State) (i : Nat)
    (h : BalanceInv s) (hnd : (s.transactions.map Transaction.id).Nodup) :
    BalanceInv (deleteTransaction s i).1 := by
  obtain ⟨hc, hs⟩ := h
  unfold deleteTransaction
  cases hf : s.transactions.find? (fun u => u.id == i) with
  | none => exact ⟨hc, hs⟩
  | some t =>
      constructor
      · rw [updateFinances_chequingBalance, updateFinances_transactions]
        show s.chequingBalance + _ = accountSum Account.chequing (s.transactions.filter _)
        rw [accountSum_filter Account.chequing i t s.transactions hnd hf, hc]
        split <;> ring
      · rw [updateFinances_savingsBalance, updateFinances_transactions]
        show s.savingsBalance + _ = accountSum Account.savings (s.transactions.filter _)
        rw [accountSum_filter Account.savings i t s.transactions hnd hf, hs]
        split <;> ring

theorem goodIds_onboard (s0 : State) (d : String)
    (h : validateUserData s0.userData = true) :
    GoodIds (handleQuestionnaireSubmit s0 d).1 := by
  unfold handleQuestionnaireSubmit
  simp only [h, if_true]
  constructor
  · intro t ht
    simp only [List.mem_cons, List.not_mem_nil, or_false] at ht
    rcases ht with rfl | rfl | rfl | rfl <;> simp
  · simp [List.nodup_cons]

theorem goodIds_add (s : State) (n : NewTxInput) (h : GoodIds s) :
    GoodIds (addTransaction s n).1 := by
  obtain ⟨hb, hnd⟩ := h
  unfold addTransaction
  by_cases hall : n.description ≠ "" ∧ n.amount ≠ "" ∧ n.category ≠ ""
  · rw [if_pos hall]
    by_cases hv : validateNumber n.amount
    · simp only [hv, if_true]
      constructor
      · intro t ht
        rw [updateFinances_transactions] at ht ⊢
        simp only [List.mem_cons] at ht
        simp only [List.length_cons]
        rcases ht with rfl | ht
        · simp
        · exact Nat.le_succ_of_le (hb t ht)
      · rw [updateFinances_transactions]
        simp only [List.map_cons, List.nodup_cons]
        refine ⟨?_, hnd⟩
        intro hmem
        obtain ⟨v, hv2, hv3⟩ := List.mem_map.mp hmem
        have := hb v hv2
        omega
    · simp only [hv, if_false]
      exact ⟨hb, hnd⟩
  · rw [if_neg hall]
    exact ⟨hb, hnd⟩

theorem goalsMap_add_zero (gs : List Goal) :
    (gs.map fun g => { g with current := g.current + 0 }) = gs := by
  induction gs with
  | nil => rfl
  | cons g gs ih =>
    rw [List.map_cons, ih, add_zero]

theorem addDel_balance (b a : Rat) (c : Prop) [Decidable c] :
    b + (if c then a else 0) + (if c then -a else 0) = b := by
  split <;> ring

theorem addTransaction_transactions (s : State) (n : NewTxInput)
    (h1 : n.description ≠ "") (h2 : n.amount ≠ "") (h3 : n.category ≠ "")
    (hv : validateNumber n.amount = true) :
    (addTransaction s n).1.transactions = newTxOf s n :: s.transactions := by
  rw [addTransaction_success s n h1 h2 h3 hv]
  exact updateFinances_transactions _ _ _

theorem addTransaction_chequing (s : State) (n : NewTxInput)
    (h1 : n.description ≠ "") (h2 : n.amount ≠ "") (h3 : n.category ≠ "")
    (hv : validateNumber n.amount = true) :
    (addTransaction s n).1.chequingBalance
      = s.chequingBalance + (if n.account = .chequing then signedAmount n else 0) := by
  rw [addTransaction_success s n h1 h2 h3 hv]
  exact updateFinances_chequingBalance _ _ _

theorem addTransaction_savings (s : State) (n : NewTxInput)
    (h1 : n.description ≠ "") (h2 : n.amount ≠ "") (h3 : n.category ≠ "")
    (hv : validateNumber n.amount = true) :
    (addTransaction s n).1.savingsBalance
      = s.savingsBalance + (if n.account = .savings then signedAmount n else 0) := by
  rw [addTransaction_success s n h1 h2 h3 hv]
  exact updateFinances_savingsBalance _ _ _

theorem addTransaction_income (s : State) (n : NewTxInput)
    (h1 : n.description ≠ "") (h2 : n.amount ≠ "") (h3 : n.category ≠ "")
    (hv : validateNumber n.amount = true) :
    (addTransaction s n).1.income
      = (if 0 < signedAmount n then s.income + signedAmount n else s.income) := by
  rw [addTransaction_success s n h1 h2 h3 hv]
  exact updateFinances_income _ _ _

theorem addTransaction_expenses (s : State) (n : NewTxInput)
    (h1 : n.description ≠ "") (h2 : n.amount ≠ "") (h3 : n.category ≠ "")
    (hv : validateNumber n.amount = true) :
    (addTransaction s n).1.expenses
      = (if 0 < signedAmount n then s.expenses else s.expenses - signedAmount n) := by
  rw [addTransaction_success s n h1 h2 h3 hv]
  exact updateFinances_expenses _ _ _

theorem addTransaction_goals (s : State) (n : NewTxInput)
    (h1 : n.description ≠ "") (h2 : n.amount ≠ "") (h3 : n.category ≠ "")
    (hv : validateNumber n.amount = true) :
    (addTransaction s n).1.goals = updateGoalProgress s.goals (signedAmount n) := by
  rw [addTransaction_success s n h1 h2 h3 hv]
  exact updateFinances_goals _ _ _

theorem deleteTransaction_fields (s : State) (i : Nat) (t : Transaction)
    (hfind : s.transactions.find? (fun u => u.id == i) = some t) :
    (deleteTransaction s i).1.transactions
        = s.transactions.filter (fun u => u.id != i) ∧
    (∀ u ∈ (deleteTransaction s i).1.transactions, u.id ≠ i) ∧
    (deleteTransaction s i).1.chequingBalance
        = s.chequingBalance + (if t.account = .chequing then -t.amount else 0) ∧
    (deleteTransaction s i).1.savingsBalance
        = s.savingsBalance + (if t.account = .savings then -t.amount else 0) ∧
    (deleteTransaction s i).1.income
        = (if 0 < -t.amount then s.income + -t.amount else s.income) ∧
    (deleteTransaction s i).1.expenses
        = (if 0 < -t.amount then s.expenses else s.expenses + t.amount) ∧
    (deleteTransaction s i).1.goals = updateGoalProgress s.goals (-t.amount) ∧
    (deleteTransaction s i).2 = true := by
  unfold deleteTransaction
  rw [hfind]
  dsimp only
  refine ⟨?_, ?_, ?_, ?_, ?_, ?_, ?_, rfl⟩
  · exact updateFinances_transactions _ _ _
  · intro u hu
    rw [updateFinances_transactions] at hu
    have hmem := List.mem_filter.mp hu
    simpa using hmem.2
  · rw [updateFinances_chequingBalance]
  · rw [updateFinances_savingsBalance]
  · rw [updateFinances_income]
  · rw [updateFinances_expenses]
    split
    · rfl
    · dsimp only
      ring
  · rw [updateFinances_goals]

theorem addThenDelete_fields (s : State) (n : NewTxInput)
    (h1 : n.description ≠ "") (h2 : n.amount ≠ "") (h3 : n.category ≠ "")
    (hv : validateNumber n.amount = true) :
    (addThenDelete s n).chequingBalance = s.chequingBalance ∧
    (addThenDelete s n).savingsBalance = s.savingsBalance ∧
    (addThenDelete s n).income = s.income + parseNumber n.amount ∧
    (addThenDelete s n).expenses = s.expenses + parseNumber n.amount ∧
    (addThenDelete s n).goals
      = s.goals.map fun g => { g with current := g.current + parseNumber n.amount } := by
  have hp : 0 ≤ parseNumber n.amount := validateNumber_nonneg n.amount hv
  have hsigned : signedAmount n = parseNumber n.amount
      ∨ signedAmount n = -parseNumber n.amount := by
    unfold signedAmount
    cases n.type
    · exact Or.inl rfl
    · exact Or.inr rfl
  have hadd := addTransaction_success s n h1 h2 h3 hv
  have hfind : (postAddState s n).transactions.find?
      (fun u => u.id == s.transactions.length + 1) = some (newTxOf s n) := by
    rw [show (postAddState s n).transactions = newTxOf s n :: s.transactions from
      updateFinances_transactions _ _ _]
    exact List.find?_cons_of_pos _ (by simp [newTxOf])
  have hdel := deleteTransaction_fields (postAddState s n)
    (s.transactions.length + 1) (newTxOf s n) hfind
  have hATD : addThenDelete s n
      = (deleteTransaction (postAddState s n) (s.transactions.length + 1)).1 := by
    unfold addThenDelete
    rw [hadd]
  have hc : (postAddState s n).chequingBalance
      = s.chequingBalance + (if n.account = .chequing then signedAmount n else 0) :=
    updateFinances_chequingBalance _ _ _
  have hsv : (postAddState s n).savingsBalance
      = s.savingsBalance + (if n.account = .savings then signedAmount n else 0) :=
    updateFinances_savingsBalance _ _ _
  have hi : (postAddState s n).income
      = (if 0 < signedAmount n then s.income + signedAmount n else s.income) :=
    updateFinances_income _ _ _
  have he : (postAddState s n).expenses
      = (if 0 < signedAmount n then s.expenses else s.expenses - signedAmount n) :=
    updateFinances_expenses _ _ _
  have hg : (postAddState s n).goals = updateGoalProgress s.goals (signedAmount n) :=
    updateFinances_goals _ _ _
  rw [hATD]
  refine ⟨?_, ?_, ?_, ?_, ?_⟩
  · rw [hdel.2.2.1, hc]
    simp only [newTxOf]
    exact addDel_balance _ _ _
  · rw [hdel.2.2.2.1, hsv]
    simp only [newTxOf]
    exact addDel_balance _ _ _
  · rw [hdel.2.2.2.2.1, hi]
    simp only [newTxOf]
    rcases hsigned with hs1 | hs1 <;> rw [hs1] <;>
      rcases hp.lt_or_eq with hpos | hzero
    · have hnn : ¬ (0 : Rat) < -parseNumber n.amount := by linarith
      rw [if_neg hnn, if_pos hpos]
    · rw [← hzero]
      simp
    · have hnn : ¬ (0 : Rat) < -parseNumber n.amount := by linarith
      rw [neg_neg, if_pos hpos, if_neg hnn]
    · rw [← hzero]
      simp
  · rw [hdel.2.2.2.2.2.1, he]
    simp only [newTxOf]
    rcases hsigned with hs1 | hs1 <;> rw [hs1] <;>
      rcases hp.lt_or_eq with hpos | hzero
    · have hnn : ¬ (0 : Rat) < -parseNumber n.amount := by linarith
      rw [if_neg hnn, if_pos hpos]
    · rw [← hzero]
      simp
    · have hnn : ¬ (0 : Rat) < -parseNumber n.amount := by linarith
      rw [neg_neg, if_pos hpos, if_neg hnn]
      ring
    · rw [← hzero]
      simp
  · rw [hdel.2.2.2.2.2.2.1, hg]
    simp only [newTxOf]
    rcases hsigned with hs1 | hs1 <;> rw [hs1] <;>
      rcases hp.lt_or_eq with hpos | hzero
    · have hnn : ¬ (-parseNumber n.amount) > (0 : Rat) := by linarith
      rw [updateGoalProgress_nonpos _ _ hnn, updateGoalProgress_pos _ _ hpos]
    · have hz0 : ¬ ((0 : Rat) > 0) := by linarith
      rw [← hzero, neg_zero, updateGoalProgress_nonpos _ _ hz0,
        updateGoalProgress_nonpos _ _ hz0]
      exact (goalsMap_add_zero s.goals).symm
    · have hnn : ¬ (-parseNumber n.amount) > (0 : Rat) := by linarith
      rw [neg_neg, updateGoalProgress_nonpos _ _ hnn,
        updateGoalProgress_pos _ _ hpos]
    · have hz0 : ¬ ((0 : Rat) > 0) := by linarith
      rw [← hzero, neg_zero, neg_zero, updateGoalProgress_nonpos _ _ hz0,
        updateGoalProgress_nonpos _ _ hz0]
      exact (goalsMap_add_zero s.goals).symm

/-! ### The claims -/

/-- C4: `calculateFinancialHealth` is a pure function of its five inputs
(determinism is by construction in the embedding); it returns 0 when
income is 0; its result always lies in [0, 100]; and for nonzero income it
equals the clamped weighted-ratio formula, even when a ratio exceeds 1. -/
theorem C4_health_score (income expenses savings investments debt : Rat) :
    (income = 0 →
      calculateFinancialHealth income expenses savings investments debt = 0) ∧
    0 ≤ calculateFinancialHealth income expenses savings investments debt ∧
    calculateFinancialHealth income expenses savings investments debt ≤ 100 ∧
    (income ≠ 0 →
      calculateFinancialHealth income expenses savings investments debt
        = min (max (((savings / income) * 30 + (investments / income) * 20
            + (1 - debt / income) * 25 + (1 - expenses / income) * 25) * 100) 0) 100) := by
  unfold calculateFinancialHealth
  by_cases h : income = 0
  · subst h
    rw [if_pos rfl]
    exact ⟨fun _ => rfl, le_refl 0, by norm_num, fun h0 => absurd rfl h0⟩
  · rw [if_neg h]
    dsimp only
    exact ⟨fun h0 => absurd h0 h, le_min (le_max_right _ _) (by norm_num),
      min_le_right _ _, fun _ => rfl⟩

/-- C4 witness: the theorem instantiated at zero income and at an expense
ratio above 1. -/
theorem C4_witness :
    calculateFinancialHealth 0 5 5 5 5 = 0 ∧
    calculateFinancialHealth 1000 2000 0 0 0
      = min (max (((0 / 1000) * 30 + (0 / 1000) * 20
          + (1 - 0 / 1000) * 25 + (1 - 2000 / 1000) * 25) * 100) 0) 100 ∧
    0 ≤ calculateFinancialHealth 1000 2000 0 0 0 ∧
    calculateFinancialHealth 1000 2000 0 0 0 ≤ 100 :=
  ⟨(C4_health_score 0 5 5 5 5).1 rfl,
   (C4_health_score 1000 2000 0 0 0).2.2.2 (by norm_num),
   (C4_health_score 1000 2000 0 0 0).2.1,
   (C4_health_score 1000 2000 0 0 0).2.2.1⟩

/-- C3 counterexample: onboarding with the Alex answers sets
`chequingBalance` to the parsed initial balance 1000; the claimed value
1000 + 3000 - 2000 = 2000 does not hold. -/
theorem C3_counterexample :
    (handleQuestionnaireSubmit alexStart "2025-01-01").1.chequingBalance = 1000 ∧
      (handleQuestionnaireSubmit alexStart "2025-01-01").1.chequingBalance ≠ 2000 := by
  decide

/-- C3 amended: the Alex onboarding creates exactly the four seed
transactions dated with the submission date, clears the questionnaire
flag, and yields chequingBalance 1000 (the parsed initial balance, not
2000), savingsBalance 500, income 3000, expenses 2000. -/
theorem C3_amended (d : String) :
    (handleQuestionnaireSubmit alexStart d).2 = true ∧
    (handleQuestionnaireSubmit alexStart d).1.transactions = [
      { id := 1, date := d, description := "Initial Chequing Balance",
        amount := 1000, type := .income, category := "Other", account := .chequing },
      { id := 2, date := d, description := "Initial Savings Balance",
        amount := 500, type := .income, category := "Other", account := .savings },
      { id := 3, date := d, description := "Monthly Income",
        amount := 3000, type := .income, category := "Other", account := .chequing },
      { id := 4, date := d, description := "Monthly Expenses",
        amount := -2000, type := .expense, category := "Other", account := .chequing }] ∧
    (handleQuestionnaireSubmit alexStart d).1.chequingBalance = 1000 ∧
    (handleQuestionnaireSubmit alexStart d).1.savingsBalance = 500 ∧
    (handleQuestionnaireSubmit alexStart d).1.income = 3000 ∧
    (handleQuestionnaireSubmit alexStart d).1.expenses = 2000 ∧
    (handleQuestionnaireSubmit alexStart d).1.showQuestionnaire = false :=
  ⟨rfl, rfl, rfl, rfl, rfl, rfl, rfl⟩

/-- C6: `addTransaction` rejects, leaving the state unchanged and without
the persistence call, any input with an empty description, amount string,
or category, or with an amount string failing the numeric pattern (the
account field is an enumeration and is always non-empty). -/
theorem C6_rejection (s : State) (n : NewTxInput)
    (h : n.description = "" ∨ n.amount = "" ∨ n.category = ""
        ∨ validateNumber n.amount = false) :
    addTransaction s n = (s, false) := by
  unfold addTransaction
  by_cases hall : n.description ≠ "" ∧ n.amount ≠ "" ∧ n.category ≠ ""
  · rcases h with h | h | h | h
    · exact absurd h hall.1
    · exact absurd h hall.2.1
    · exact absurd h hall.2.2
    · rw [if_pos hall, if_neg]
      simp [h]
  · rw [if_neg hall]

/-- C6 witness: the rejection theorem at the amount strings "-5" and
"abc" and at an empty description, on the onboarded state. -/
theorem C6_witness :
    addTransaction onboardedAlex negFiveInput = (onboardedAlex, false) ∧
    addTransaction onboardedAlex abcInput = (onboardedAlex, false) ∧
    addTransaction onboardedAlex noDescInput = (onboardedAlex, false) :=
  ⟨C6_rejection onboardedAlex negFiveInput (Or.inr (Or.inr (Or.inr (by decide)))),
   C6_rejection onboardedAlex abcInput (Or.inr (Or.inr (Or.inr (by decide)))),
   C6_rejection onboardedAlex noDescInput (Or.inl rfl)⟩

/-- C8: exporting the full state and importing the exported blob restores
all eleven exported fields exactly. -/
theorem C8_roundtrip (s : State) :
    (updateAllData (exportData s)).chequingBalance = s.chequingBalance ∧
    (updateAllData (exportData s)).savingsBalance = s.savingsBalance ∧
    (updateAllData (exportData s)).income = s.income ∧
    (updateAllData (exportData s)).expenses = s.expenses ∧
    (updateAllData (exportData s)).transactions = s.transactions ∧
    (updateAllData (exportData s)).goals = s.goals ∧
    (updateAllData (exportData s)).budgetCategories = s.budgetCategories ∧
    (updateAllData (exportData s)).investments = s.investments ∧
    (updateAllData (exportData s)).cryptocurrencies = s.cryptocurrencies ∧
    (updateAllData (exportData s)).userData = s.userData ∧
    (updateAllData (exportData s)).financialHealthScore = s.financialHealthScore :=
  ⟨rfl, rfl, rfl, rfl, rfl, rfl, rfl, rfl, rfl, rfl, rfl⟩

/-- C9 counterexample: importing the parseable but wrong-shape document
with no expected keys replaces the onboarded state with the defaulted
state and reports success, instead of leaving the state untouched. -/
theorem C9_counterexample :
    (importData onboardedAlex (some emptyBlob)).1 ≠ onboardedAlex ∧
      (importData onboardedAlex (some emptyBlob)).2 = true :=
  ⟨by decide, rfl⟩

/-- C9 amended: only input on which JSON parsing throws is rejected with
the error notice and an unchanged state; any parseable blob, whatever its
shape, replaces the whole state via `updateAllData` (missing fields
defaulted) and is reported as a success. -/
theorem C9_amended (s : State) :
    importData s none = (s, false) ∧
      ∀ d : FinancialData, importData s (some d) = (updateAllData d, true) :=
  ⟨rfl, fun _ => rfl⟩

/-- C1 counterexample: from the empty state, where the invariant holds,
the sequence add "1", add "2", delete id 1, add "4" (which reuses id 2),
delete id 2 removes both id-2 transactions while reversing only the first
amount, so the balance invariant fails afterwards. -/
theorem C1_counterexample : BalanceInv initialState ∧ ¬ BalanceInv dupSeqState := by
  refine ⟨by decide, fun hInv => ?_⟩
  have hb1 : c1s1.chequingBalance = 1 := by
    rw [show c1s1 = (addTransaction initialState depositA).1 from rfl,
        addTransaction_chequing initialState depositA (by decide) (by decide)
          (by decide) (by decide),
        (by decide : signedAmount depositA = (1 : Rat)),
        (by decide : initialState.chequingBalance = (0 : Rat))]
    norm_num [depositA]
  have hb2 : c1s2.chequingBalance = 3 := by
    rw [show c1s2 = (addTransaction c1s1 depositB).1 from rfl,
        addTransaction_chequing c1s1 depositB (by decide) (by decide)
          (by decide) (by decide),
        (by decide : signedAmount depositB = (2 : Rat)), hb1]
    norm_num [depositB, depositA]
  have hf3 : c1s2.transactions.find? (fun u => u.id == 1) = some
      { id := 1, date := "2025-01-03", description := "a", amount := 1,
        type := .income, category := "Other", account := .chequing } := by decide
  have hd3 := deleteTransaction_fields c1s2 1 _ hf3
  have hb3 : c1s3.chequingBalance = 2 := by
    rw [show c1s3 = (deleteTransaction c1s2 1).1 from rfl, hd3.2.2.1, hb2]
    norm_num
  have hb4 : c1s4.chequingBalance = 6 := by
    rw [show c1s4 = (addTransaction c1s3 depositC).1 from rfl,
        addTransaction_chequing c1s3 depositC (by decide) (by decide)
          (by decide) (by decide),
        (by decide : signedAmount depositC = (4 : Rat)), hb3]
    norm_num [depositC, depositA]
  have hf5 : c1s4.transactions.find? (fun u => u.id == 2) = some
      { id := 2, date := "2025-01-03", description := "c", amount := 4,
        type := .income, category := "Other", account := .chequing } := by decide
  have hd5 := deleteTransaction_fields c1s4 2 _ hf5
  have hb5 : dupSeqState.chequingBalance = 2 := by
    rw [show dupSeqState = (deleteTransaction c1s4 2).1 from rfl, hd5.2.2.1, hb4]
    norm_num
  have ht5 : dupSeqState.transactions = [] := by
    rw [show dupSeqState = (deleteTransaction c1s4 2).1 from rfl, hd5.1]
    decide
  have h0 : dupSeqState.chequingBalance = 0 := by
    have h := hInv.1
    rw [ht5] at h
    simpa [accountSum] using h
  rw [hb5] at h0
  norm_num at h0

/-- C1 amended: `addTransaction` always preserves the balance-ledger
invariant, and `deleteTransaction` preserves it provided the transaction
ids in the state are pairwise distinct; without that proviso the
counterexample sequence breaks the invariant. -/
theorem C1_amended (s : State) (n : NewTxInput) (i : Nat) (h : BalanceInv s) :
    BalanceInv (addTransaction s n).1 ∧
      ((s.transactions.map Transaction.id).Nodup →
        BalanceInv (deleteTransaction s i).1) :=
  ⟨add_preserves_balanceInv s n h, fun hnd => delete_preserves_balanceInv s i h hnd⟩

/-- C1 witness: the amended theorem applied to the empty state. -/
theorem C1_witness :
    BalanceInv (addTransaction initialState depositA).1 ∧
      BalanceInv (deleteTransaction initialState 1).1 := by
  have h := C1_amended initialState depositA 1 (by decide)
  exact ⟨h.1, h.2 (by decide)⟩

/-- C7 counterexample: deleting seed transaction 1 from the onboarded
state and then adding a transaction assigns the new id
`count + 1 = 4`, which collides with the remaining seed id 4, so this
reachable state has duplicate transaction ids. -/
theorem C7_counterexample :
    Reachable reusedIdState ∧
      ¬ (reusedIdState.transactions.map Transaction.id).Nodup :=
  ⟨Reachable.add _ depositC
      (Reachable.del _ 1 (Reachable.base alexStart "2025-01-01" (by decide))),
   by decide⟩

/-- C7 amended: along `addTransaction`-only sequences from a successful
onboarding, transaction ids stay pairwise distinct; a delete followed by
an add can reuse an id, as the counterexample shows. -/
theorem C7_amended (s : State) (h : ReachableByAdds s) :
    (s.transactions.map Transaction.id).Nodup := by
  have hg : GoodIds s := by
    induction h with
    | base s0 d hv => exact goodIds_onboard s0 d hv
    | step s n _ ih => exact goodIds_add s n ih
  exact hg.2

/-- C7 witness: the amended theorem at the onboarded Alex state. -/
theorem C7_witness : (onboardedAlex.transactions.map Transaction.id).Nodup :=
  C7_amended onboardedAlex (ReachableByAdds.base alexStart "2025-01-01" (by decide))

/-- C2 counterexample: adding the Gift income of 5 to the onboarded state
and immediately deleting it leaves income at 3005 and expenses at 2005
instead of restoring 3000 and 2000: the delete re-runs the counter update
with the negated amount, which bumps the opposite counter instead of
undoing the original one. -/
theorem C2_counterexample :
    onboardedAlex.income = 3000 ∧ onboardedAlex.expenses = 2000 ∧
    (addThenDelete onboardedAlex giftInput).income = 3005 ∧
    (addThenDelete onboardedAlex giftInput).expenses = 2005 ∧
    (addThenDelete onboardedAlex giftInput).income ≠ onboardedAlex.income := by
  have h := addThenDelete_fields onboardedAlex giftInput (by decide) (by decide)
    (by decide) (by decide)
  have hi : (addThenDelete onboardedAlex giftInput).income = 3005 := by
    rw [h.2.2.1, (by decide : onboardedAlex.income = (3000 : Rat)),
      (by decide : parseNumber giftInput.amount = (5 : Rat))]
    norm_num
  have he : (addThenDelete onboardedAlex giftInput).expenses = 2005 := by
    rw [h.2.2.2.1, (by decide : onboardedAlex.expenses = (2000 : Rat)),
      (by decide : parseNumber giftInput.amount = (5 : Rat))]
    norm_num
  refine ⟨by decide, by decide, hi, he, ?_⟩
  rw [hi, (by decide : onboardedAlex.income = (3000 : Rat))]
  norm_num

/-- C2 amended: add followed by delete of the new id restores the two
account balances exactly, but instead of restoring the counters it leaves
income, expenses, and every goal's `current` each increased by the parsed
amount (for both income- and expense-typed transactions). -/
theorem C2_amended (s : State) (n : NewTxInput)
    (h1 : n.description ≠ "") (h2 : n.amount ≠ "") (h3 : n.category ≠ "")
    (hv : validateNumber n.amount = true) :
    (addThenDelete s n).chequingBalance = s.chequingBalance ∧
    (addThenDelete s n).savingsBalance = s.savingsBalance ∧
    (addThenDelete s n).income = s.income + parseNumber n.amount ∧
    (addThenDelete s n).expenses = s.expenses + parseNumber n.amount ∧
    (addThenDelete s n).goals
      = s.goals.map fun g => { g with current := g.current + parseNumber n.amount } :=
  addThenDelete_fields s n h1 h2 h3 hv

/-- C2 witness: the amended theorem at the onboarded state with the Gift
income input. -/
theorem C2_witness :
    (addThenDelete onboardedAlex giftInput).chequingBalance
        = onboardedAlex.chequingBalance ∧
    (addThenDelete onboardedAlex giftInput).income
        = onboardedAlex.income + parseNumber giftInput.amount := by
  have h := C2_amended onboardedAlex giftInput (by decide) (by decide) (by decide)
    (by decide)
  exact ⟨h.1, h.2.2.1⟩

theorem afterCoffee_chequing : afterCoffee.chequingBalance = 995 := by
  rw [show afterCoffee = (addTransaction onboardedAlex coffeeInput).1 from rfl,
    addTransaction_chequing onboardedAlex coffeeInput (by decide) (by decide)
      (by decide) (by decide),
    (by decide : signedAmount coffeeInput = (-5 : Rat)),
    (by decide : onboardedAlex.chequingBalance = (1000 : Rat))]
  norm_num [coffeeInput]

theorem afterCoffee_expenses : afterCoffee.expenses = 2005 := by
  rw [show afterCoffee = (addTransaction onboardedAlex coffeeInput).1 from rfl,
    addTransaction_expenses onboardedAlex coffeeInput (by decide) (by decide)
      (by decide) (by decide),
    (by decide : signedAmount coffeeInput = (-5 : Rat)),
    (by decide : onboardedAlex.expenses = (2000 : Rat))]
  norm_num

theorem afterCoffee_head :
    afterCoffee.transactions.head?.map Transaction.amount = some (-5) := by
  rw [show afterCoffee = (addTransaction onboardedAlex coffeeInput).1 from rfl,
    addTransaction_transactions onboardedAlex coffeeInput (by decide) (by decide)
      (by decide) (by decide)]
  simp [newTxOf, (by decide : signedAmount coffeeInput = (-5 : Rat))]

/-- C5 counterexample: on the onboarded Alex state (whose chequing
balance is 1000), the Coffee expense of 5 yields chequingBalance 995, not
the claimed 1995. -/
theorem C5_counterexample :
    afterCoffee.chequingBalance = 995 ∧ afterCoffee.chequingBalance ≠ 1995 := by
  refine ⟨afterCoffee_chequing, ?_⟩
  rw [afterCoffee_chequing]
  norm_num

/-- C5 amended: on success the new transaction with the signed amount is
prepended at the head; the named account's balance moves by the signed
amount; a positive signed amount bumps income and every goal's `current`;
a negative one bumps expenses by its magnitude and leaves goals alone.
On the onboarded Alex state the Coffee expense gives chequingBalance 995
(not 1995), expenses 2005, and head amount -5. -/
theorem C5_amended (s : State) (n : NewTxInput)
    (h1 : n.description ≠ "") (h2 : n.amount ≠ "") (h3 : n.category ≠ "")
    (hv : validateNumber n.amount = true) :
    ((addTransaction s n).1.transactions = newTxOf s n :: s.transactions ∧
      (addTransaction s n).1.chequingBalance
        = s.chequingBalance + (if n.account = .chequing then signedAmount n else 0) ∧
      (addTransaction s n).1.savingsBalance
        = s.savingsBalance + (if n.account = .savings then signedAmount n else 0) ∧
      (0 < signedAmount n →
        (addTransaction s n).1.income = s.income + signedAmount n ∧
        (addTransaction s n).1.goals
          = s.goals.map fun g => { g with current := g.current + signedAmount n }) ∧
      (signedAmount n < 0 →
        (addTransaction s n).1.expenses = s.expenses + -signedAmount n ∧
        (addTransaction s n).1.goals = s.goals)) ∧
    (afterCoffee.chequingBalance = 995 ∧ afterCoffee.expenses = 2005 ∧
      afterCoffee.transactions.head?.map Transaction.amount = some (-5)) := by
  refine ⟨⟨addTransaction_transactions s n h1 h2 h3 hv,
      addTransaction_chequing s n h1 h2 h3 hv,
      addTransaction_savings s n h1 h2 h3 hv,
      fun hpos => ⟨?_, ?_⟩, fun hneg => ⟨?_, ?_⟩⟩,
    afterCoffee_chequing, afterCoffee_expenses, afterCoffee_head⟩
  · rw [addTransaction_income s n h1 h2 h3 hv, if_pos hpos]
  · rw [addTransaction_goals s n h1 h2 h3 hv, updateGoalProgress_pos _ _ hpos]
  · rw [addTransaction_expenses s n h1 h2 h3 hv,
      if_neg (not_lt.mpr (le_of_lt hneg)), sub_eq_add_neg]
  · rw [addTransaction_goals s n h1 h2 h3 hv,
      updateGoalProgress_nonpos _ _ (not_lt.mpr (le_of_lt hneg))]

/-- C5 witness: the amended theorem at the onboarded state with the
Coffee input. -/
theorem C5_witness :
    (addTransaction onboardedAlex coffeeInput).1.chequingBalance = 995 ∧
      (addTransaction onboardedAlex coffeeInput).1.expenses = 2005 := by
  have h := C5_amended onboardedAlex coffeeInput (by decide) (by decide) (by decide)
    (by decide)
  exact ⟨h.2.1, h.2.2.1⟩

/-- C10: in a state where at least two transactions share the target id,
`deleteTransaction` removes every transaction bearing that id but applies
the balance/income/expense/goal adjustment exactly once, with the amount
and account of the first matching transaction `t` (`find?` returns the
first match in list order). -/
theorem C10_dup_delete (s : State) (i : Nat) (t : Transaction)
    (_hdup : 2 ≤ s.transactions.countP (fun u => u.id == i))
    (hfind : s.transactions.find? (fun u => u.id == i) = some t) :
    (deleteTransaction s i).1.transactions
        = s.transactions.filter (fun u => u.id != i) ∧
    (∀ u ∈ (deleteTransaction s i).1.transactions, u.id ≠ i) ∧
    (deleteTransaction s i).1.chequingBalance
        = s.chequingBalance + (if t.account = .chequing then -t.amount else 0) ∧
    (deleteTransaction s i).1.savingsBalance
        = s.savingsBalance + (if t.account = .savings then -t.amount else 0) ∧
    (deleteTransaction s i).1.income
        = (if 0 < -t.amount then s.income + -t.amount else s.income) ∧
    (deleteTransaction s i).1.expenses
        = (if 0 < -t.amount then s.expenses else s.expenses + t.amount) ∧
    (deleteTransaction s i).1.goals = updateGoalProgress s.goals (-t.amount) ∧
    (deleteTransaction s i).2 = true :=
  deleteTransaction_fields s i t hfind

/-- C10 witness: a state with two id-2 transactions of amounts 4 and 2;
deleting id 2 empties the list but subtracts only the first amount 4. -/
theorem C10_witness :
    dupIdState.transactions.map Transaction.id = [2, 2] ∧
    (deleteTransaction dupIdState 2).1.transactions = [] ∧
    (deleteTransaction dupIdState 2).1.chequingBalance = 2 ∧
    (deleteTransaction dupIdState 2).2 = true := by
  have h := C10_dup_delete dupIdState 2
    { id := 2, date := "2025-01-03", description := "c", amount := 4,
      type := .income, category := "Other", account := .chequing }
    (by decide) (by decide)
  refine ⟨by decide, ?_, ?_, h.2.2.2.2.2.2.2⟩
  · rw [h.1]
    decide
  · rw [h.2.2.1, (by decide : dupIdState.chequingBalance = (6 : Rat))]
    norm_num

end FT
